import Mathlib

/-!
Shallow embedding of the REST Countries Explorer (src/script.js) and proofs
about its filter/sort/paginate pipeline, favorites store, data-loader
normalization and fetch control flow.

Modelling conventions:
* JS strings are Lean `String`; `toLowerCase`, `trim` and `includes` are
  modelled over the character list (`String.data`) by `jsToLower`, `jsTrim`
  and `strContains`.  `localeCompare` is modelled as character-code
  lexicographic comparison (`strCmp`), the default-collation abstraction.
* `Array.prototype.sort(cmp)` is a stable sort by the total preorder
  `cmp a b ≤ 0`; it is modelled by `List.insertionSort`, which is stable.
* JS numbers holding populations and counts are `Nat`; comparator results
  are `Int` (`b.population - a.population` can be negative).
* Absent (`undefined`/`null`) JSON fields are `Option.none`; JS truthiness
  of a string field is `jsStrTruthy` (absent or empty string is falsy).
* Exceptions are `Except`; a `try`/`catch` block is a `match` on the result
  of the protected computation.
-/

/-- Lexicographic comparison of character lists by character code
(model of the string comparison underlying `localeCompare`). -/
def cmpChars : List Char → List Char → Ordering
  | [], [] => .eq
  | [], _ :: _ => .lt
  | _ :: _, [] => .gt
  | a :: as, b :: bs =>
    if a.toNat < b.toNat then .lt
    else if b.toNat < a.toNat then .gt
    else cmpChars as bs

/-- Model of `a.localeCompare(b)`: negative, zero or positive `Int`. -/
def strCmp (a b : String) : Int :=
  match cmpChars a.data b.data with
  | .lt => -1
  | .eq => 0
  | .gt => 1

/-- Does `needle` occur at the very front of `hay`? (helper for `includes`). -/
def headMatch : List Char → List Char → Bool
  | [], _ => true
  | _ :: _, [] => false
  | a :: as, b :: bs => a == b && headMatch as bs

/-- Does `needle` occur anywhere in `hay`? (helper for `includes`). -/
def subMatch : List Char → List Char → Bool
  | needle, [] => headMatch needle []
  | needle, b :: bs => headMatch needle (b :: bs) || subMatch needle bs

/-- Model of JS `hay.includes(needle)`. -/
def strContains (hay needle : String) : Bool :=
  subMatch needle.data hay.data

/-- Model of JS `String.prototype.toLowerCase` (character-wise lowering). -/
def jsToLower (s : String) : String :=
  ⟨s.data.map Char.toLower⟩

/-- Whitespace recognized by the model of `String.prototype.trim`. -/
def jsIsWs (c : Char) : Bool :=
  c == ' ' || c == '\t' || c == '\n' || c == '\r'

/-- Model of JS `String.prototype.trim`. -/
def jsTrim (s : String) : String :=
  ⟨((s.data.dropWhile jsIsWs).reverse.dropWhile jsIsWs).reverse⟩

/-- JS truthiness of an optional string field: `undefined`, `null` and the
empty string are falsy. -/
def jsStrTruthy : Option String → Bool
  | none => false
  | some s => s != ""

/-- A country record as the pipeline sees it (post-normalization fields the
search/sort/paginate code reads: `cca3`, `name.common`, `capital`, `region`,
`population`). -/
structure Country where
  cca3 : String
  nameCommon : String
  capital : List String
  region : String
  population : Nat
deriving DecidableEq, Repr

/-- script.js line 10: `const itemsPerPage = 21`. -/
def itemsPerPage : Nat := 21

/-- The search predicate of `applyFiltersAndSort` (script.js lines 251-255):
lowered common name, first capital entry (guarded by its truthiness), or
lowered region contains the search term. -/
def matchesSearch (searchTerm : String) (c : Country) : Bool :=
  strContains (jsToLower c.nameCommon) searchTerm ||
    (match c.capital with
      | [] => false
      | cap :: _ => (cap != "") && strContains (jsToLower cap) searchTerm) ||
    strContains (jsToLower c.region) searchTerm

/-- The search step of `applyFiltersAndSort` (script.js lines 249-256):
the input value is lowercased and trimmed; a nonempty term filters, an
empty term keeps everything. -/
def searchFilter (countries : List Country) (searchInputValue : String) :
    List Country :=
  let searchTerm := jsTrim (jsToLower searchInputValue)
  if searchTerm ≠ "" then countries.filter (matchesSearch searchTerm)
  else countries

/-- The favorites step of `applyFiltersAndSort` (script.js lines 259-263). -/
def favoritesFilterStep (countries : List Country) (showFavoritesOnly : Bool)
    (favorites : List String) : List Country :=
  if showFavoritesOnly then
    countries.filter (fun c => favorites.contains c.cca3)
  else countries

/-- Comparator of sort method `a-z` (script.js line 278). -/
def cmpAZ (a b : Country) : Int := strCmp a.nameCommon b.nameCommon

/-- Comparator of sort method `z-a` (script.js line 280). -/
def cmpZA (a b : Country) : Int := strCmp b.nameCommon a.nameCommon

/-- Comparator of sort method `continent` (script.js lines 282-287). -/
def cmpContinent (a b : Country) : Int :=
  if a.region ≠ b.region then strCmp a.region b.region
  else strCmp a.nameCommon b.nameCommon

/-- Comparator of sort method `pop-high` (script.js line 289). -/
def cmpPopHigh (a b : Country) : Int :=
  (b.population : Int) - (a.population : Int)

/-- Comparator of sort method `pop-low` (script.js line 291). -/
def cmpPopLow (a b : Country) : Int :=
  (a.population : Int) - (b.population : Int)

/-- The order a stable JS sort realises for comparator `cmpAZ`. -/
def azRel (a b : Country) : Prop := cmpAZ a b ≤ 0

/-- The order a stable JS sort realises for comparator `cmpZA`. -/
def zaRel (a b : Country) : Prop := cmpZA a b ≤ 0

/-- The order a stable JS sort realises for comparator `cmpContinent`. -/
def contRel (a b : Country) : Prop := cmpContinent a b ≤ 0

/-- The order a stable JS sort realises for comparator `cmpPopHigh`. -/
def popHighRel (a b : Country) : Prop := cmpPopHigh a b ≤ 0

/-- The order a stable JS sort realises for comparator `cmpPopLow`. -/
def popLowRel (a b : Country) : Prop := cmpPopLow a b ≤ 0

instance : DecidableRel azRel :=
  fun a b => inferInstanceAs (Decidable (cmpAZ a b ≤ 0))

instance : DecidableRel zaRel :=
  fun a b => inferInstanceAs (Decidable (cmpZA a b ≤ 0))

instance : DecidableRel contRel :=
  fun a b => inferInstanceAs (Decidable (cmpContinent a b ≤ 0))

instance : DecidableRel popHighRel :=
  fun a b => inferInstanceAs (Decidable (cmpPopHigh a b ≤ 0))

instance : DecidableRel popLowRel :=
  fun a b => inferInstanceAs (Decidable (cmpPopLow a b ≤ 0))

/-- script.js `sortCountries` (lines 273-295): a stable sort of a copy of
the list by the selected comparator; unknown methods return the copy. -/
def sortCountries (countries : List Country) (method : String) : List Country :=
  match method with
  | "a-z" => countries.insertionSort azRel
  | "z-a" => countries.insertionSort zaRel
  | "continent" => countries.insertionSort contRel
  | "pop-high" => countries.insertionSort popHighRel
  | "pop-low" => countries.insertionSort popLowRel
  | _ => countries

/-- script.js `applyFiltersAndSort` (lines 245-270): search filter, then
favorites filter, then sort; the result is what pagination slices. -/
def applyFiltersAndSort (allCountries : List Country)
    (searchInputValue : String) (showFavoritesOnly : Bool)
    (favorites : List String) (currentSort : String) : List Country :=
  sortCountries
    (favoritesFilterStep (searchFilter allCountries searchInputValue)
      showFavoritesOnly favorites)
    currentSort

/-- script.js line 299: `Math.ceil(countries.length / itemsPerPage)`. -/
def totalPages (n : Nat) : Nat := (n + itemsPerPage - 1) / itemsPerPage

/-- script.js lines 300-302: the slice of page `page` (1-based),
`countries.slice((page-1)*itemsPerPage, page*itemsPerPage)`. -/
def pageSlice (countries : List Country) (page : Nat) : List Country :=
  (countries.drop ((page - 1) * itemsPerPage)).take itemsPerPage

/-- script.js `renderPagination` (lines 392-447): the numbered page buttons
rendered for `currentPage` of `totalPages` pages; nothing is rendered for a
single page.  (`currentPage` is 1-based, so Nat truncated subtraction in
`currentPage - 2` agrees with `Math.max(1, currentPage - 2)`.) -/
def pageButtons (currentPage total : Nat) : List Nat :=
  if total ≤ 1 then []
  else
    let startPage := max 1 (currentPage - 2)
    let endPage := min total (currentPage + 2)
    (List.range (endPage + 1 - startPage)).map (fun i => startPage + i)

/-- script.js `toggleFavorite` (lines 459-468): remove the first occurrence
when present (`indexOf`/`splice`), append when absent (`push`). -/
def toggleFavorite (favorites : List String) (countryCode : String) :
    List String :=
  if favorites.contains countryCode then favorites.erase countryCode
  else favorites ++ [countryCode]

/-- The `name` field of a raw API item: the v2 API sends a plain string,
v3.1 sends an object with `common`/`official` members. -/
inductive RawName where
  | nameStr (s : String)
  | nameObj (common : String) (official : Option String)
deriving DecidableEq, Repr

/-- A v3.1 `flags` object (`png`/`alt`). -/
structure RawFlags where
  png : Option String
  alt : Option String
deriving DecidableEq, Repr

/-- A v3.1 `maps` object. -/
structure MapLinks where
  googleMaps : Option String
  openStreetMaps : Option String
deriving DecidableEq, Repr

/-- A v3.1 `capitalInfo` object. -/
structure CapitalInfo where
  latlng : Option (Int × Int)
deriving DecidableEq, Repr

/-- A raw item as received from either API generation, before the
normalization map of `fetchCountries` (script.js lines 128-156).  Absent
JSON keys are `none`. -/
structure RawCountry where
  cca3 : Option String
  alpha3Code : Option String
  name : RawName
  flag : Option String
  flags : Option RawFlags
  capital : Option (List String)
  region : Option String
  subregion : Option String
  population : Option Nat
  area : Option Nat
  borders : Option (List String)
  languages : Option (List (String × String))
  currencies : Option (List (String × String))
  timezones : Option (List String)
  continents : Option (List String)
  latlng : Option (Int × Int)
  maps : Option MapLinks
  capitalInfo : Option CapitalInfo
  nativeName : Option String
deriving DecidableEq, Repr

/-- JS template-literal rendering of the raw `name` value (an object
stringifies as `[object Object]`), used for the v2 flag alt text. -/
def rawNameText : RawName → String
  | .nameStr s => s
  | .nameObj _ _ => "[object Object]"

/-- Model of `x || null` for an optional string: the empty string is falsy
and becomes `null`. -/
def jsOrNullStr : Option String → Option String
  | some "" => none
  | x => x

/-- Model of `x || null` for an optional number: `0` is falsy and becomes
`null`. -/
def jsOrNullNat : Option Nat → Option Nat
  | some 0 => none
  | x => x

/-- script.js line 130: a raw item is in the legacy (v2) shape when
`country.alpha3Code && !country.cca3`. -/
def legacyShape (c : RawCountry) : Bool :=
  jsStrTruthy c.alpha3Code && !jsStrTruthy c.cca3

/-- The per-item normalization map of `fetchCountries`
(script.js lines 128-156).  A legacy-shaped item only has `cca3`, `name`
and `flags` reshaped; any other item gets `borders`, `languages`,
`currencies`, `timezones`, `continents` and `maps` defaulted and
`area`/`subregion`/`nativeName` coerced through `|| null`.  `capital` is
never touched. -/
def normalizeCountry (country : RawCountry) : RawCountry :=
  if legacyShape country then
    { country with
      cca3 := country.alpha3Code
      name :=
        match country.name with
        | .nameStr s => .nameObj s none
        | other => other
      flags :=
        if jsStrTruthy country.flag then
          some { png := country.flag
                 alt := some (rawNameText country.name ++ " flag") }
        else country.flags }
  else
    { country with
      borders := some (country.borders.getD [])
      languages := some (country.languages.getD [])
      currencies := some (country.currencies.getD [])
      timezones := some (country.timezones.getD [])
      continents := some (country.continents.getD [])
      area := jsOrNullNat country.area
      maps := some (country.maps.getD { googleMaps := none, openStreetMaps := none })
      subregion := jsOrNullStr country.subregion
      nativeName := jsOrNullStr country.nativeName }

/-- The body of `loadFavorites` without its `try`/`catch`
(script.js lines 710-714): absent or empty stored text keeps the previous
favorites; otherwise the stored text is parsed, which may throw. -/
def loadFavoritesAttempt (prev : List String) (stored : Option String)
    (parse : String → Except String (List String)) :
    Except String (List String) :=
  match stored with
  | none => Except.ok prev
  | some s => if s = "" then Except.ok prev else parse s

/-- script.js `loadFavorites` (lines 709-719): the body runs under
`try`/`catch`, and the handler resets favorites to `[]`.  `prev` is the
favorites value before the call (`[]` at the only call site, startup). -/
def loadFavoritesRun (prev : List String) (stored : Option String)
    (parse : String → Except String (List String)) : List String :=
  match loadFavoritesAttempt prev stored parse with
  | Except.ok l => l
  | Except.error _ => []

/-- script.js `saveFavorites` (lines 722-728): serialize and write under
`try`/`catch`; a failing write leaves the stored value as it was, and the
in-memory favorites are returned untouched either way. -/
def saveFavoritesRun (favorites : List String) (stored : Option String)
    (writeFails : Bool) (serialize : List String → String) :
    Option String × List String :=
  if writeFails then (stored, favorites)
  else (some (serialize favorites), favorites)

/-- The payload of a fetch response after `response.json()`: a sequence of
raw items or something that is not a sequence. -/
inductive Payload where
  | arr (items : List RawCountry)
  | notArr
deriving DecidableEq, Repr

/-- An HTTP response as `fetchCountries` inspects it: `response.ok` plus
the decoded payload. -/
structure FetchResponse where
  ok : Bool
  body : Payload
deriving DecidableEq, Repr

/-- What the page displays after a load attempt: the populated grid, or the
error panel of `showError` (script.js lines 196-209), which always carries
the retry button. -/
inductive RenderState where
  | grid (shown : List RawCountry)
  | errorPanel (message : String) (hasRetryButton : Bool)
deriving DecidableEq, Repr

/-- The endpoints `fetchCountries` actually requests for the main dataset
(script.js lines 76-82): the primary always, the legacy fallback exactly
when the primary response is not ok. -/
def fetchAttempts (primary : FetchResponse) : List String :=
  ["primary"] ++ (if primary.ok then [] else ["fallback"])

/-- The merge of one additional-data item into a main item
(script.js line 105, `{ ...country, ...additional }`): the keys the
additional request carries override when present. -/
def mergeAdditional (country additional : RawCountry) : RawCountry :=
  { country with
    cca3 := match additional.cca3 with | some v => some v | none => country.cca3
    languages := match additional.languages with | some v => some v | none => country.languages
    currencies := match additional.currencies with | some v => some v | none => country.currencies
    borders := match additional.borders with | some v => some v | none => country.borders
    timezones := match additional.timezones with | some v => some v | none => country.timezones }

/-- Error text of script.js lines 169-176 for an HTTP-error throw. -/
def httpErrorMessage : String :=
  "Gagal memuat data negara. Kesalahan server. Silakan coba lagi nanti."

/-- Error text of script.js lines 169-176 for any other throw (such as the
invalid-data-format throw of line 92). -/
def otherErrorMessage : String :=
  "Gagal memuat data negara. Silakan coba lagi nanti."

/-- script.js `fetchCountries` (lines 67-180) as a function of the two main
responses and the optional additional-data payload (`none` when that call
failed; its failure is tolerated).  Returns the new in-memory collection
(`prevAll` when the load fails) and the rendered state. -/
def fetchCountriesRun (prevAll : List RawCountry)
    (primary fallback : FetchResponse)
    (additional : Option (List RawCountry)) :
    List RawCountry × RenderState :=
  let response := if primary.ok then primary else fallback
  if !response.ok then
    (prevAll, .errorPanel httpErrorMessage true)
  else
    match response.body with
    | .notArr => (prevAll, .errorPanel otherErrorMessage true)
    | .arr data =>
      let merged :=
        match additional with
        | some ad =>
          data.map (fun (c : RawCountry) =>
            match ad.find? (fun (a : RawCountry) => a.cca3 == c.cca3) with
            | some a => mergeAdditional c a
            | none => c)
        | none => data
      let all := merged.map normalizeCountry
      (all, .grid all)

theorem uint32_toNat_inj {a b : UInt32} (h : a.toNat = b.toNat) : a = b := by
  cases a; cases b
  simp only [UInt32.toNat] at h
  congr 1
  exact BitVec.eq_of_toNat_eq h

theorem char_toNat_inj {a b : Char} (h : a.toNat = b.toNat) : a = b :=
  Char.ext (uint32_toNat_inj h)

theorem string_data_inj {a b : String} (h : a.data = b.data) : a = b := by
  cases a; cases b; exact congrArg String.mk h

theorem cmpChars_eq_iff : ∀ as bs : List Char,
    cmpChars as bs = Ordering.eq ↔ as = bs := by
  intro as
  induction as with
  | nil =>
    intro bs
    cases bs with
    | nil => simp [cmpChars]
    | cons b bs => simp [cmpChars]
  | cons a as ih =>
    intro bs
    cases bs with
    | nil => simp [cmpChars]
    | cons b bs =>
      simp only [cmpChars, List.cons.injEq]
      by_cases h1 : a.toNat < b.toNat
      · rw [if_pos h1]
        constructor
        · intro h; exact absurd h (by decide)
        · rintro ⟨rfl, -⟩; exact absurd h1 (by omega)
      · by_cases h2 : b.toNat < a.toNat
        · rw [if_neg h1, if_pos h2]
          constructor
          · intro h; exact absurd h (by decide)
          · rintro ⟨rfl, -⟩; exact absurd h2 (by omega)
        · rw [if_neg h1, if_neg h2]
          have hab : a = b := char_toNat_inj (by omega)
          subst hab
          rw [ih bs]
          simp

theorem cmpChars_swap : ∀ as bs : List Char,
    cmpChars bs as = (cmpChars as bs).swap := by
  intro as
  induction as with
  | nil =>
    intro bs
    cases bs with
    | nil => rfl
    | cons b bs => rfl
  | cons a as ih =>
    intro bs
    cases bs with
    | nil => rfl
    | cons b bs =>
      simp only [cmpChars]
      rcases Nat.lt_trichotomy a.toNat b.toNat with h | h | h
      · rw [if_neg (by omega), if_pos h, if_pos h]; rfl
      · rw [if_neg (by omega), if_neg (by omega), if_neg (by omega),
          if_neg (by omega), ih bs]
      · rw [if_pos h, if_neg (by omega), if_pos h]; rfl

theorem cmpChars_le_trans : ∀ as bs cs : List Char,
    cmpChars as bs ≠ Ordering.gt → cmpChars bs cs ≠ Ordering.gt →
    cmpChars as cs ≠ Ordering.gt := by
  intro as
  induction as with
  | nil =>
    intro bs cs _ _
    cases cs with
    | nil => simp [cmpChars]
    | cons c cs => simp [cmpChars]
  | cons a as ih =>
    intro bs cs h1 h2
    cases bs with
    | nil => exact absurd rfl h1
    | cons b bs =>
      cases cs with
      | nil => exact absurd rfl h2
      | cons c cs =>
        simp only [cmpChars] at h1 h2 ⊢
        rcases Nat.lt_trichotomy a.toNat b.toNat with hab | hab | hab
        · rcases Nat.lt_trichotomy b.toNat c.toNat with hbc | hbc | hbc
          · rw [if_pos (by omega)]; simp
          · rw [if_pos (by omega)]; simp
          · rw [if_neg (by omega), if_pos hbc] at h2
            exact absurd rfl h2
        · rcases Nat.lt_trichotomy b.toNat c.toNat with hbc | hbc | hbc
          · rw [if_pos (by omega)]; simp
          · rw [if_neg (by omega), if_neg (by omega)]
            rw [if_neg (by omega), if_neg (by omega)] at h1
            rw [if_neg (by omega), if_neg (by omega)] at h2
            exact ih bs cs h1 h2
          · rw [if_neg (by omega), if_pos hbc] at h2
            exact absurd rfl h2
        · rw [if_neg (by omega), if_pos hab] at h1
          exact absurd rfl h1

theorem strCmp_nonpos_iff (a b : String) :
    strCmp a b ≤ 0 ↔ cmpChars a.data b.data ≠ Ordering.gt := by
  unfold strCmp
  rcases h : cmpChars a.data b.data <;> simp

theorem strCmp_le_trans {a b c : String}
    (h1 : strCmp a b ≤ 0) (h2 : strCmp b c ≤ 0) : strCmp a c ≤ 0 := by
  rw [strCmp_nonpos_iff] at h1 h2 ⊢
  exact cmpChars_le_trans a.data b.data c.data h1 h2

theorem strCmp_swap (a b : String) : strCmp b a = -strCmp a b := by
  unfold strCmp
  rw [cmpChars_swap]
  rcases cmpChars a.data b.data <;> rfl

theorem strCmp_le_total (a b : String) : strCmp a b ≤ 0 ∨ strCmp b a ≤ 0 := by
  rw [strCmp_swap a b]
  omega

theorem strCmp_eq_zero_iff {a b : String} : strCmp a b = 0 ↔ a = b := by
  unfold strCmp
  rcases h : cmpChars a.data b.data with _ | _ | _
  · simp only [show (-1 : Int) = 0 ↔ False by decide, false_iff]
    intro hab
    rw [hab, (cmpChars_eq_iff b.data b.data).2 rfl] at h
    cases h
  · simp only [show (0 : Int) = 0 ↔ True by decide, true_iff]
    exact string_data_inj ((cmpChars_eq_iff a.data b.data).1 h)
  · simp only [show (1 : Int) = 0 ↔ False by decide, false_iff]
    intro hab
    rw [hab, (cmpChars_eq_iff b.data b.data).2 rfl] at h
    cases h

theorem strCmp_cases (a b : String) :
    strCmp a b = -1 ∨ strCmp a b = 0 ∨ strCmp a b = 1 := by
  unfold strCmp
  rcases cmpChars a.data b.data <;> simp

theorem strCmp_neg_of_ne {a b : String} (hne : a ≠ b)
    (hle : strCmp a b ≤ 0) : strCmp a b < 0 := by
  have h0 : strCmp a b ≠ 0 := fun h => hne (strCmp_eq_zero_iff.1 h)
  rcases strCmp_cases a b with h | h | h <;> omega

instance : IsTrans Country azRel :=
  ⟨fun _ _ _ h1 h2 => strCmp_le_trans h1 h2⟩

instance : IsTotal Country azRel :=
  ⟨fun a b => strCmp_le_total a.nameCommon b.nameCommon⟩

instance : IsTrans Country zaRel :=
  ⟨fun _ _ _ h1 h2 => strCmp_le_trans h2 h1⟩

instance : IsTotal Country zaRel :=
  ⟨fun a b => (strCmp_le_total b.nameCommon a.nameCommon).symm.symm⟩

instance : IsTrans Country popHighRel :=
  ⟨by intro a b c h1 h2; simp only [popHighRel, cmpPopHigh] at *; omega⟩

instance : IsTotal Country popHighRel :=
  ⟨by intro a b; simp only [popHighRel, cmpPopHigh]; omega⟩

instance : IsTrans Country popLowRel :=
  ⟨by intro a b c h1 h2; simp only [popLowRel, cmpPopLow] at *; omega⟩

instance : IsTotal Country popLowRel :=
  ⟨by intro a b; simp only [popLowRel, cmpPopLow]; omega⟩

instance : IsTrans Country contRel := by
  refine ⟨fun a b c h1 h2 => ?_⟩
  simp only [contRel, cmpContinent] at h1 h2 ⊢
  by_cases hab : a.region = b.region <;> by_cases hbc : b.region = c.region
  · rw [if_neg (by simp [hab.trans hbc])]
    rw [if_neg (by simp [hab])] at h1
    rw [if_neg (by simp [hbc])] at h2
    exact strCmp_le_trans h1 h2
  · have hac : a.region ≠ c.region := by rw [hab]; exact hbc
    rw [if_pos hac, hab]
    rw [if_pos hbc] at h2
    exact h2
  · have hac : a.region ≠ c.region := by rw [← hbc]; exact hab
    rw [if_pos hac, ← hbc]
    rw [if_pos hab] at h1
    exact h1
  · rw [if_pos hab] at h1
    rw [if_pos hbc] at h2
    by_cases hac : a.region = c.region
    · exfalso
      have h1' := strCmp_neg_of_ne hab h1
      have h2' := strCmp_neg_of_ne hbc h2
      have hsw := strCmp_swap a.region b.region
      rw [← hac] at h2'
      omega
    · rw [if_pos hac]
      exact strCmp_le_trans h1 h2

instance : IsTotal Country contRel := by
  refine ⟨fun a b => ?_⟩
  simp only [contRel, cmpContinent]
  by_cases hab : a.region = b.region
  · rw [if_neg (by simp [hab]), if_neg (by simp [hab.symm])]
    exact strCmp_le_total a.nameCommon b.nameCommon
  · rw [if_pos hab, if_pos (Ne.symm hab)]
    exact strCmp_le_total a.region b.region

/-- C5 counterexample: on a favorites list that holds the identifier twice,
toggling `AAA` twice removes both occurrences, so the membership state is
not restored — the claim quantified over every favorites list is false. -/
theorem c5_counterexample :
    "AAA" ∈ (["AAA", "AAA"] : List String) ∧
    "AAA" ∉ toggleFavorite (toggleFavorite ["AAA", "AAA"] "AAA") "AAA" := by
  decide

/-- C5 (amended): for every favorites list F in which the identifier occurs
at most once — the invariant the toggle logic itself maintains — applying
`toggleFavorite(id)` twice yields a list with the same membership as F, for
every element: one toggle adds the identifier if absent and removes it if
present. -/
theorem c5_toggle_twice_membership (F : List String) (code : String)
    (h : F.count code ≤ 1) :
    ∀ x, x ∈ toggleFavorite (toggleFavorite F code) code ↔ x ∈ F := by
  intro x
  by_cases hmem : code ∈ F
  · have hc1 : F.count code = 1 :=
      Nat.le_antisymm h (List.count_pos_iff.2 hmem)
    have h1 : toggleFavorite F code = F.erase code := by
      simp [toggleFavorite, List.elem_iff, hmem]
    have hzero : (F.erase code).count code = 0 := by
      rw [List.count_erase_self, hc1]
    have hid : code ∉ F.erase code := List.count_eq_zero.1 hzero
    have h2 : toggleFavorite (F.erase code) code = F.erase code ++ [code] := by
      simp [toggleFavorite, List.elem_iff, hid]
    rw [h1, h2]
    simp only [List.mem_append, List.mem_singleton]
    by_cases hx : x = code
    · subst hx; simp [hmem]
    · simp [hx, List.mem_erase_of_ne hx]
  · have h1 : toggleFavorite F code = F ++ [code] := by
      simp [toggleFavorite, List.elem_iff, hmem]
    have h2 : toggleFavorite (F ++ [code]) code = F := by
      have hcon : code ∈ F ++ [code] := by simp
      simp only [toggleFavorite, List.elem_iff]
      rw [if_pos hcon, List.erase_append_right _ hmem]
      simp
    rw [h1, h2]

/-- Witness for C5 (amended) at a concrete duplicate-free list. -/
theorem c5_witness :
    (["AAA"] : List String).count "AAA" ≤ 1 ∧
    ("BBB" ∈ toggleFavorite (toggleFavorite ["AAA"] "AAA") "AAA" ↔
      "BBB" ∈ (["AAA"] : List String)) :=
  ⟨by decide, c5_toggle_twice_membership ["AAA"] "AAA" (by decide) "BBB"⟩

/-- C10: `toggleFavorite` preserves the no-duplicates invariant (an absent
identifier is appended exactly once, a present one has exactly its first
occurrence removed), and on a list that holds the identifier at least
twice a single toggle removes only the first occurrence, so the identifier
stays a member. -/
theorem c10_toggle_nodup (F : List String) (code : String) :
    (F.Nodup → (toggleFavorite F code).Nodup) ∧
    (code ∉ F → toggleFavorite F code = F ++ [code]) ∧
    (code ∈ F → toggleFavorite F code = F.erase code) ∧
    (2 ≤ F.count code → code ∈ toggleFavorite F code) := by
  refine ⟨?_, ?_, ?_, ?_⟩
  · intro hnd
    by_cases hmem : code ∈ F
    · simp only [toggleFavorite, List.elem_iff, if_pos hmem]
      exact hnd.erase code
    · simp only [toggleFavorite, List.elem_iff, if_neg hmem]
      rw [List.nodup_append]
      exact ⟨hnd, List.nodup_singleton code,
        fun a ha h => hmem ((List.mem_singleton.1 h) ▸ ha)⟩
  · intro h
    simp [toggleFavorite, List.elem_iff, h]
  · intro h
    simp [toggleFavorite, List.elem_iff, h]
  · intro h
    have hmem : code ∈ F := List.count_pos_iff.1 (by omega)
    simp only [toggleFavorite, List.elem_iff, if_pos hmem]
    have hcnt : (F.erase code).count code = F.count code - 1 :=
      List.count_erase_self code F
    exact List.count_pos_iff.1 (by omega)

/-- Witness for C10 at concrete lists covering all three conditional parts. -/
theorem c10_witness :
    toggleFavorite ["AAA"] "BBB" = ["AAA", "BBB"] ∧
    toggleFavorite ["AAA", "BBB"] "AAA" = ["BBB"] ∧
    "AAA" ∈ toggleFavorite ["AAA", "AAA"] "AAA" :=
  ⟨(c10_toggle_nodup ["AAA"] "BBB").2.1 (by decide),
   ((c10_toggle_nodup ["AAA", "BBB"] "AAA").2.2.1 (by decide)).trans (by decide),
   (c10_toggle_nodup ["AAA", "AAA"] "AAA").2.2.2 (by decide)⟩

theorem pagesJoinAux (P : Nat) : ∀ (k : Nat) (l : List Country),
    ((List.range k).map (fun i => (l.drop (i * P)).take P)).flatten =
      l.take (k * P) := by
  intro k
  induction k with
  | zero => intro l; simp
  | succ k ih =>
    intro l
    rw [List.range_succ, List.map_append, List.flatten_append]
    simp only [List.map_cons, List.map_nil, List.flatten_cons,
      List.flatten_nil, List.append_nil]
    rw [ih l, Nat.succ_mul, List.take_add]

/-- C2: pagination yields `ceil(N / itemsPerPage)` pages (`totalPages` is
the least `T` with `N ≤ itemsPerPage * T`, as the two bounds state), and
concatenating the page slices for pages `1` through `totalPages` in order
reproduces the filtered list exactly, each record appearing exactly once. -/
theorem c2_pagination_partition (l : List Country) :
    ((List.range (totalPages l.length)).map
      (fun page => pageSlice l (page + 1))).flatten = l ∧
    l.length ≤ itemsPerPage * totalPages l.length ∧
    itemsPerPage * totalPages l.length < l.length + itemsPerPage := by
  have hceil1 : l.length ≤ itemsPerPage * totalPages l.length := by
    simp only [totalPages, itemsPerPage]
    omega
  have hceil2 : itemsPerPage * totalPages l.length < l.length + itemsPerPage := by
    simp only [totalPages, itemsPerPage]
    omega
  refine ⟨?_, hceil1, hceil2⟩
  have hfun : (fun page => pageSlice l (page + 1)) =
      (fun i => (l.drop (i * itemsPerPage)).take itemsPerPage) := by
    funext i
    simp [pageSlice]
  rw [hfun, pagesJoinAux itemsPerPage (totalPages l.length) l]
  exact List.take_of_length_le (by simpa [Nat.mul_comm] using hceil1)

/-- C7: the `a-z` sort is non-decreasing under the locale-compare model on
common names, and the `continent` sort is ordered primarily by region and
secondarily by common name. -/
theorem c7_az_continent_sorted (C : List Country) :
    (sortCountries C "a-z").Pairwise
      (fun a b => strCmp a.nameCommon b.nameCommon ≤ 0) ∧
    (sortCountries C "continent").Pairwise
      (fun a b => strCmp a.region b.region < 0 ∨
        (a.region = b.region ∧ strCmp a.nameCommon b.nameCommon ≤ 0)) := by
  constructor
  · exact List.sorted_insertionSort azRel C
  · have h := List.sorted_insertionSort contRel C
    refine h.imp ?_
    intro a b hab
    simp only [contRel, cmpContinent] at hab
    by_cases hr : a.region = b.region
    · right
      exact ⟨hr, by rwa [if_neg (by simp [hr])] at hab⟩
    · left
      rw [if_pos hr] at hab
      exact strCmp_neg_of_ne hr hab

/-- C6: sorting by `pop-high` and reversing gives the same population
sequence as sorting by `pop-low`, and the two lists are permutations of
one another — equality up to the ordering of population ties. -/
theorem c6_pop_high_reverse_low (C : List Country) :
    ((sortCountries C "pop-high").reverse.map Country.population =
      (sortCountries C "pop-low").map Country.population) ∧
    ((sortCountries C "pop-high").reverse.Perm (sortCountries C "pop-low")) := by
  have p1 : (List.insertionSort popHighRel C).Perm C :=
    List.perm_insertionSort popHighRel C
  have p2 : (List.insertionSort popLowRel C).Perm C :=
    List.perm_insertionSort popLowRel C
  have hperm : (sortCountries C "pop-high").reverse.Perm
      (sortCountries C "pop-low") :=
    ((List.reverse_perm _).trans p1).trans p2.symm
  refine ⟨?_, hperm⟩
  have s1 : (List.insertionSort popHighRel C).Pairwise popHighRel :=
    List.sorted_insertionSort popHighRel C
  have s2 : (List.insertionSort popLowRel C).Pairwise popLowRel :=
    List.sorted_insertionSort popLowRel C
  have m1 : ((sortCountries C "pop-high").reverse.map Country.population).Pairwise
      (· ≤ ·) := by
    rw [List.map_reverse, List.pairwise_reverse, List.pairwise_map]
    refine s1.imp ?_
    intro a b hab
    simp only [popHighRel, cmpPopHigh] at hab
    omega
  have m2 : ((sortCountries C "pop-low").map Country.population).Pairwise
      (· ≤ ·) := by
    rw [List.pairwise_map]
    refine s2.imp ?_
    intro a b hab
    simp only [popLowRel, cmpPopLow] at hab
    omega
  exact List.eq_of_perm_of_sorted (hperm.map Country.population) m1 m2

/-- The search predicate as the spec words it (for comparison with
`matchesSearch`): the lowered field contains the term, with no truthiness
guard on the first capital entry.  Instantiated at `jsToLower s` it is
exactly "contains `s` as a case-insensitive substring". -/
def specSearchMatch (t : String) (c : Country) : Bool :=
  strContains (jsToLower c.nameCommon) t ||
    (match c.capital with
      | [] => false
      | cap :: _ => strContains (jsToLower cap) t) ||
    strContains (jsToLower c.region) t

theorem strContains_empty_hay {t : String} (h : t ≠ "") :
    strContains "" t = false := by
  have hd : t.data ≠ [] := by
    intro hnil
    exact h (string_data_inj hnil)
  unfold strContains subMatch
  cases ht : t.data with
  | nil => exact absurd ht hd
  | cons x xs => rfl

theorem matchesSearch_eq_spec {t : String} (h : t ≠ "") (c : Country) :
    matchesSearch t c = specSearchMatch t c := by
  unfold matchesSearch specSearchMatch
  cases hc : c.capital with
  | nil => rfl
  | cons cap caps =>
    by_cases hcap : cap = ""
    · subst hcap
      have hlow : jsToLower "" = "" := rfl
      have : strContains (jsToLower "") t = false := by
        rw [hlow]
        exact strContains_empty_hay h
      simp [this]
    · have : (cap != "") = true := by simpa using hcap
      simp [this]

/-- C1 counterexample: the code trims the search text, the claim as stated
does not.  For the input `" a"` (leading blank) the record `cuba` passes
the code's filter, yet none of its three fields contains `" a"` as a
case-insensitive substring, and the input is not empty. -/
def cuba : Country :=
  { cca3 := "CUB", nameCommon := "Cuba", capital := ["Havana"],
    region := "Americas", population := 11008112 }

theorem c1_counterexample :
    (" a" : String) ≠ "" ∧
    cuba ∈ searchFilter [cuba] " a" ∧
    specSearchMatch (jsToLower " a") cuba = false := by
  decide

/-- C1 (amended): the match is against the lowercased-and-trimmed search
text.  When the trimmed text is empty every record passes; otherwise a
record of C is in the filtered result exactly when its common name, first
capital entry (when present), or region — lowercased — contains the
trimmed lowercased text, and every record absent from the result fails
all three checks. -/
theorem c1_search_filter (C : List Country) (s : String) :
    (jsTrim (jsToLower s) = "" → searchFilter C s = C) ∧
    (jsTrim (jsToLower s) ≠ "" →
      ∀ c, c ∈ searchFilter C s ↔
        c ∈ C ∧ specSearchMatch (jsTrim (jsToLower s)) c = true) := by
  constructor
  · intro h
    simp [searchFilter, h]
  · intro h c
    simp only [searchFilter, if_pos h]
    rw [List.mem_filter, matchesSearch_eq_spec h]

/-- Witness for C1 (amended) at concrete inputs exercising both branches. -/
theorem c1_witness :
    searchFilter [cuba] "  " = [cuba] ∧
    (cuba ∈ searchFilter [cuba] "cu" ↔
      cuba ∈ [cuba] ∧ specSearchMatch (jsTrim (jsToLower "cu")) cuba = true) :=
  ⟨(c1_search_filter [cuba] "  ").1 (by decide),
   (c1_search_filter [cuba] "cu").2 (by decide) cuba⟩

/-- A concrete collection of 25 records with pairwise distinct,
already-alphabetical names. -/
def testCollection : List Country :=
  (List.range 25).map (fun i =>
    { cca3 := "X" ++ toString i
      nameCommon := "N" ++ toString (i + 10)
      capital := []
      region := "R"
      population := i })

/-- C3 counterexample: the page size is 21, not 20 — page 1 of a
25-record collection holds 21 records. -/
theorem c3_counterexample :
    (pageSlice (applyFiltersAndSort testCollection "" false [] "a-z") 1).length
      ≠ 20 := by
  decide

/-- C3 (amended): with the program's page size 21, a 25-record collection
with favorites-only off, empty search and sort `a-z` shows the first 21
records of the alphabetically sorted list on page 1, the remaining 4 on
page 2, and the pagination controls render exactly the 2 page buttons. -/
theorem c3_pagination_of_25 (C : List Country) (favs : List String)
    (h : C.length = 25) :
    (applyFiltersAndSort C "" false favs "a-z").Pairwise
      (fun a b => strCmp a.nameCommon b.nameCommon ≤ 0) ∧
    (applyFiltersAndSort C "" false favs "a-z").Perm C ∧
    pageSlice (applyFiltersAndSort C "" false favs "a-z") 1 =
      (applyFiltersAndSort C "" false favs "a-z").take 21 ∧
    (pageSlice (applyFiltersAndSort C "" false favs "a-z") 1).length = 21 ∧
    pageSlice (applyFiltersAndSort C "" false favs "a-z") 2 =
      (applyFiltersAndSort C "" false favs "a-z").drop 21 ∧
    (pageSlice (applyFiltersAndSort C "" false favs "a-z") 2).length = 4 ∧
    pageButtons 1
      (totalPages (applyFiltersAndSort C "" false favs "a-z").length) =
      [1, 2] := by
  have heq : applyFiltersAndSort C "" false favs "a-z" =
      C.insertionSort azRel := rfl
  rw [heq]
  have hlen : (C.insertionSort azRel).length = 25 := by
    rw [(List.perm_insertionSort azRel C).length_eq, h]
  refine ⟨List.sorted_insertionSort azRel C, List.perm_insertionSort azRel C,
    ?_, ?_, ?_, ?_, ?_⟩
  · simp [pageSlice, itemsPerPage]
  · simp [pageSlice, itemsPerPage, List.length_take, List.length_drop, hlen]
  · show ((C.insertionSort azRel).drop ((2 - 1) * itemsPerPage)).take
      itemsPerPage = (C.insertionSort azRel).drop 21
    have h21 : (2 - 1) * itemsPerPage = 21 := rfl
    rw [h21]
    exact List.take_of_length_le (by rw [List.length_drop, hlen]; decide)
  · simp [pageSlice, itemsPerPage, List.length_take, List.length_drop, hlen]
  · rw [hlen]
    decide

/-- Witness for C3 (amended) at the concrete 25-record collection. -/
theorem c3_witness :
    testCollection.length = 25 ∧
    (pageSlice (applyFiltersAndSort testCollection "" false [] "a-z") 2).length
      = 4 :=
  ⟨by decide,
   (c3_pagination_of_25 testCollection [] (by decide)).2.2.2.2.2.1⟩

/-- A canonical-shape (v3.1) raw item whose source omits `capital` (and
most other optional fields). -/
def rawNoCapital : RawCountry :=
  { cca3 := some "ABW", alpha3Code := none,
    name := .nameObj "Aruba" (some "Aruba"),
    flag := none, flags := none, capital := none, region := some "Americas",
    subregion := none, population := some 106766, area := none,
    borders := none, languages := none, currencies := none,
    timezones := none, continents := none, latlng := none,
    maps := none, capitalInfo := none, nativeName := none }

/-- A legacy-shape (v2) raw item whose source omits `timezones` and
`borders`. -/
def rawLegacyBare : RawCountry :=
  { cca3 := none, alpha3Code := some "FRA",
    name := .nameStr "France",
    flag := some "fr.png", flags := none, capital := some ["Paris"],
    region := some "Europe", subregion := none, population := some 67000000,
    area := none, borders := none, languages := none, currencies := none,
    timezones := none, continents := none, latlng := none, maps := none,
    capitalInfo := none, nativeName := none }

/-- C4 counterexample: normalization leaves an omitted `capital` absent
even on a canonical-shape item, and leaves `timezones` and `borders`
absent on a legacy-shape item — they do not become empty sequences. -/
theorem c4_counterexample :
    (normalizeCountry rawNoCapital).capital = none ∧
    (normalizeCountry rawLegacyBare).timezones = none ∧
    (normalizeCountry rawLegacyBare).borders = none := by
  decide

theorem jsOrNullNat_pos {n : Nat} (h : n ≠ 0) :
    jsOrNullNat (some n) = some n := by
  cases n with
  | zero => exact absurd rfl h
  | succ m => rfl

theorem jsOrNullStr_str {s : String} (h : s ≠ "") :
    jsOrNullStr (some s) = some s := by
  unfold jsOrNullStr
  split <;> simp_all

/-- C4 (amended): defaulting happens only for canonical-shape items, and
only for `borders`, `languages`, `currencies`, `timezones`, `continents`
and `maps` (plus the falsy-to-null coercions of `area`, `subregion` and
`nativeName`: an absent or falsy value becomes null, any other value is
kept); `capital` is carried through unchanged for every item, and a
legacy-shape item receives no defaulting at all beyond the
`cca3`/`name`/`flags` reshaping. -/
theorem c4_normalization_defaults (r : RawCountry) :
    (legacyShape r = false →
      (normalizeCountry r).borders = some (r.borders.getD []) ∧
      (normalizeCountry r).languages = some (r.languages.getD []) ∧
      (normalizeCountry r).currencies = some (r.currencies.getD []) ∧
      (normalizeCountry r).timezones = some (r.timezones.getD []) ∧
      (normalizeCountry r).continents = some (r.continents.getD []) ∧
      (normalizeCountry r).maps =
        some (r.maps.getD { googleMaps := none, openStreetMaps := none }) ∧
      (normalizeCountry r).latlng = r.latlng ∧
      (normalizeCountry r).capitalInfo = r.capitalInfo ∧
      (normalizeCountry r).capital = r.capital ∧
      ((r.area = none ∨ r.area = some 0) →
        (normalizeCountry r).area = none) ∧
      (∀ n, r.area = some n → n ≠ 0 →
        (normalizeCountry r).area = some n) ∧
      ((r.subregion = none ∨ r.subregion = some "") →
        (normalizeCountry r).subregion = none) ∧
      (∀ s, r.subregion = some s → s ≠ "" →
        (normalizeCountry r).subregion = some s) ∧
      ((r.nativeName = none ∨ r.nativeName = some "") →
        (normalizeCountry r).nativeName = none) ∧
      (∀ s, r.nativeName = some s → s ≠ "" →
        (normalizeCountry r).nativeName = some s)) ∧
    (legacyShape r = true →
      (normalizeCountry r).cca3 = r.alpha3Code ∧
      (normalizeCountry r).capital = r.capital ∧
      (normalizeCountry r).borders = r.borders ∧
      (normalizeCountry r).timezones = r.timezones ∧
      (normalizeCountry r).languages = r.languages ∧
      (normalizeCountry r).currencies = r.currencies ∧
      (normalizeCountry r).area = r.area ∧
      (normalizeCountry r).subregion = r.subregion ∧
      (normalizeCountry r).nativeName = r.nativeName) := by
  constructor
  · intro h
    have hb : normalizeCountry r =
        { r with
          borders := some (r.borders.getD [])
          languages := some (r.languages.getD [])
          currencies := some (r.currencies.getD [])
          timezones := some (r.timezones.getD [])
          continents := some (r.continents.getD [])
          area := jsOrNullNat r.area
          maps := some (r.maps.getD
            { googleMaps := none, openStreetMaps := none })
          subregion := jsOrNullStr r.subregion
          nativeName := jsOrNullStr r.nativeName } := by
      unfold normalizeCountry
      rw [h]
      rfl
    rw [hb]
    refine ⟨rfl, rfl, rfl, rfl, rfl, rfl, rfl, rfl, rfl,
      ?_, ?_, ?_, ?_, ?_, ?_⟩
    · rintro (ha | ha) <;> rw [ha] <;> rfl
    · intro n hn hne
      rw [hn]
      exact jsOrNullNat_pos hne
    · rintro (ha | ha) <;> rw [ha] <;> rfl
    · intro s hs hne
      rw [hs]
      exact jsOrNullStr_str hne
    · rintro (ha | ha) <;> rw [ha] <;> rfl
    · intro s hs hne
      rw [hs]
      exact jsOrNullStr_str hne
  · intro h
    simp [normalizeCountry, h]

/-- Witness for C4 (amended) at the two concrete raw items, including a
null-coercion instance. -/
theorem c4_witness :
    (normalizeCountry rawNoCapital).timezones = some [] ∧
    (normalizeCountry rawNoCapital).area = none ∧
    (normalizeCountry rawLegacyBare).cca3 = some "FRA" :=
  ⟨((c4_normalization_defaults rawNoCapital).1 (by decide)).2.2.2.1,
   ((c4_normalization_defaults rawNoCapital).1
      (by decide)).2.2.2.2.2.2.2.2.2.1 (Or.inl rfl),
   ((c4_normalization_defaults rawLegacyBare).2 (by decide)).1⟩

/-- C8: the favorites load is total and defaults to the empty list on any
failure (absent key, empty stored text, or a parse error), returns exactly
the parsed list on success, and the save swallows a persistence failure
while always leaving the in-memory favorites untouched. -/
theorem c8_favorites_persistence
    (stored : Option String) (parse : String → Except String (List String))
    (favs : List String) (store : Option String) (writeFails : Bool)
    (serialize : List String → String) :
    (loadFavoritesRun [] stored parse = [] ∨
      ∃ s l, stored = some s ∧ parse s = Except.ok l ∧
        loadFavoritesRun [] stored parse = l) ∧
    (∀ s l, stored = some s → s ≠ "" → parse s = Except.ok l →
      loadFavoritesRun [] stored parse = l) ∧
    (∀ s e, stored = some s → parse s = Except.error e →
      loadFavoritesRun [] stored parse = []) ∧
    (saveFavoritesRun favs store writeFails serialize).2 = favs ∧
    (writeFails = true →
      (saveFavoritesRun favs store writeFails serialize).1 = store) := by
  refine ⟨?_, ?_, ?_, ?_, ?_⟩
  · cases stored with
    | none => left; rfl
    | some s =>
      by_cases hs : s = ""
      · left; simp [loadFavoritesRun, loadFavoritesAttempt, hs]
      · cases hp : parse s with
        | ok l =>
          right
          exact ⟨s, l, rfl, hp,
            by simp [loadFavoritesRun, loadFavoritesAttempt, hs, hp]⟩
        | error e =>
          left; simp [loadFavoritesRun, loadFavoritesAttempt, hs, hp]
  · intro s l hst hs hp
    subst hst
    simp [loadFavoritesRun, loadFavoritesAttempt, hs, hp]
  · intro s e hst hp
    subst hst
    by_cases hs : s = ""
    · simp [loadFavoritesRun, loadFavoritesAttempt, hs]
    · simp [loadFavoritesRun, loadFavoritesAttempt, hs, hp]
  · cases writeFails <;> simp [saveFavoritesRun]
  · intro hw
    subst hw
    simp [saveFavoritesRun]

/-- Witness for C8 at a failing parse and a failing write. -/
theorem c8_witness :
    loadFavoritesRun [] (some "bad")
      (fun _ => Except.error "SyntaxError") = [] ∧
    (saveFavoritesRun ["AAA"] (some "x") true (fun _ => "y")).1 = some "x" :=
  ⟨(c8_favorites_persistence (some "bad") (fun _ => Except.error "SyntaxError")
      [] none false (fun _ => "")).2.2.1 "bad" "SyntaxError" rfl rfl,
   (c8_favorites_persistence (some "bad") (fun _ => Except.error "SyntaxError")
      ["AAA"] (some "x") true (fun _ => "y")).2.2.2.2 rfl⟩

/-- C9: a failed primary request triggers exactly one retry against the
fallback endpoint (and a successful one triggers none); when the selected
response is not ok, or is ok with a non-sequence payload, the result is
the error panel with the retry control and the in-memory collection is
left exactly as it was — no partial grid. -/
theorem c9_fetch_failure (prevAll : List RawCountry)
    (primary fallback : FetchResponse)
    (additional : Option (List RawCountry)) :
    (primary.ok = false → fetchAttempts primary = ["primary", "fallback"]) ∧
    (primary.ok = true → fetchAttempts primary = ["primary"]) ∧
    (primary.ok = false → fallback.ok = false →
      fetchCountriesRun prevAll primary fallback additional =
        (prevAll, RenderState.errorPanel httpErrorMessage true)) ∧
    ((if primary.ok then primary else fallback).ok = true →
      (if primary.ok then primary else fallback).body = Payload.notArr →
      fetchCountriesRun prevAll primary fallback additional =
        (prevAll, RenderState.errorPanel otherErrorMessage true)) := by
  refine ⟨?_, ?_, ?_, ?_⟩
  · intro h
    simp [fetchAttempts, h]
  · intro h
    simp [fetchAttempts, h]
  · intro h1 h2
    simp [fetchCountriesRun, h1, h2]
  · intro h1 h2
    cases hp : primary.ok with
    | true =>
      rw [if_pos hp] at h1 h2
      simp [fetchCountriesRun, hp, h1, h2]
    | false =>
      rw [if_neg (by simp [hp])] at h1 h2
      simp [fetchCountriesRun, hp, h1, h2]

/-- Witness for C9 at a concrete pair of failing responses and at a
successful response with a non-sequence payload. -/
theorem c9_witness :
    fetchAttempts { ok := false, body := Payload.notArr } =
      ["primary", "fallback"] ∧
    fetchCountriesRun [] { ok := false, body := Payload.notArr }
      { ok := false, body := Payload.notArr } none =
      ([], RenderState.errorPanel httpErrorMessage true) ∧
    fetchCountriesRun [] { ok := true, body := Payload.notArr }
      { ok := true, body := Payload.notArr } none =
      ([], RenderState.errorPanel otherErrorMessage true) :=
  ⟨(c9_fetch_failure [] ⟨false, Payload.notArr⟩ ⟨false, Payload.notArr⟩
      none).1 rfl,
   (c9_fetch_failure [] ⟨false, Payload.notArr⟩ ⟨false, Payload.notArr⟩
      none).2.2.1 rfl rfl,
   (c9_fetch_failure [] ⟨true, Payload.notArr⟩ ⟨true, Payload.notArr⟩
      none).2.2.2 rfl rfl⟩
